import Mathlib

/-!
Verification of the SVG grid generator (`generateSVG` in `src/src/App.tsx`).

The generator is a pure function from a settings record to an SVG string.
We embed it shallowly: real-number arithmetic is modelled by `ℚ` (every
constant in the source, including the mm→pixel factor `3.779527559`, is a
decimal literal, hence rational), and the two JavaScript `for` loops
(`for (let x = start; x <= end; x += spacing)`) are modelled by a
fuel-indexed iteration returning `Option (List ℚ)`: `none` means the loop
has not finished within the given fuel, and we prove that for non-positive
spacing no amount of fuel suffices (the source loop never terminates).
-/

/-- `pageUnit` field: one of `mm`, `cm`, `in` (`in` is a Lean keyword, so
the inch case is named `inch`). -/
inductive PageUnit where
  | mm
  | cm
  | inch
deriving DecidableEq, Repr

/-- `gridType` field: `lines` or `dots`. -/
inductive GridType where
  | lines
  | dots
deriving DecidableEq, Repr

/-- The `GridSettings` interface of `App.tsx` (fields in source order). -/
structure GridSettings where
  pageWidth : ℚ
  pageHeight : ℚ
  pageUnit : PageUnit
  gridType : GridType
  gridSpacingX : ℚ
  gridSpacingY : ℚ
  lineWidth : ℚ
  dotSize : ℚ
  rectangleWidth : ℚ
  rectangleHeight : ℚ
  rectangleBorderWidth : ℚ
deriving DecidableEq, Repr

/-- `const mmToPixel = 3.779527559` (pixels per millimeter at 96 DPI). -/
def mmToPixel : ℚ := 3779527559 / 1000000000

/-- `pageWidthMm`: page width normalized to millimeters
(`cm` multiplies by 10, `in` by 25.4, `mm` unchanged). -/
def pageWidthMm (s : GridSettings) : ℚ :=
  match s.pageUnit with
  | PageUnit.mm => s.pageWidth
  | PageUnit.cm => s.pageWidth * 10
  | PageUnit.inch => s.pageWidth * (254 / 10)

/-- `pageHeightMm`: page height normalized to millimeters. -/
def pageHeightMm (s : GridSettings) : ℚ :=
  match s.pageUnit with
  | PageUnit.mm => s.pageHeight
  | PageUnit.cm => s.pageHeight * 10
  | PageUnit.inch => s.pageHeight * (254 / 10)

/-- `const rectangleX = (pageWidthMm - rectangleWidth) / 2`. -/
def rectangleX (s : GridSettings) : ℚ := (pageWidthMm s - s.rectangleWidth) / 2

/-- `const rectangleY = (pageHeightMm - rectangleHeight) / 2`. -/
def rectangleY (s : GridSettings) : ℚ := (pageHeightMm s - s.rectangleHeight) / 2

/-- `const svgWidth = pageWidthMm * mmToPixel`. -/
def svgWidth (s : GridSettings) : ℚ := pageWidthMm s * mmToPixel

/-- `const svgHeight = pageHeightMm * mmToPixel`. -/
def svgHeight (s : GridSettings) : ℚ := pageHeightMm s * mmToPixel

/-- `const rectW = rectangleWidth * mmToPixel`. -/
def rectW (s : GridSettings) : ℚ := s.rectangleWidth * mmToPixel

/-- `const rectH = rectangleHeight * mmToPixel`. -/
def rectH (s : GridSettings) : ℚ := s.rectangleHeight * mmToPixel

/-- `const rectX = rectangleX * mmToPixel`. -/
def rectX (s : GridSettings) : ℚ := rectangleX s * mmToPixel

/-- `const rectY = rectangleY * mmToPixel`. -/
def rectY (s : GridSettings) : ℚ := rectangleY s * mmToPixel

/-- `const spacingX = gridSpacingX * mmToPixel`. -/
def spacingX (s : GridSettings) : ℚ := s.gridSpacingX * mmToPixel

/-- `const spacingY = gridSpacingY * mmToPixel`. -/
def spacingY (s : GridSettings) : ℚ := s.gridSpacingY * mmToPixel

/-- `const gridStartX = rectX`. -/
def gridStartX (s : GridSettings) : ℚ := rectX s

/-- `const gridEndX = rectX + rectW`. -/
def gridEndX (s : GridSettings) : ℚ := rectX s + rectW s

/-- `const gridStartY = rectY`. -/
def gridStartY (s : GridSettings) : ℚ := rectY s

/-- `const gridEndY = rectY + rectH`. -/
def gridEndY (s : GridSettings) : ℚ := rectY s + rectH s

/-- Fuel-indexed model of the JS loop header
`for (let x = start; x <= stop; x += sp)`: the list of loop-variable
values, or `none` when `fuel` iterations do not reach termination.
The source loop itself has no bound, so `none` for every fuel models
non-termination. -/
def forLoop (stop sp : ℚ) : ℚ → ℕ → Option (List ℚ)
  | x, 0 => if x ≤ stop then none else some []
  | x, Nat.succ f =>
      if x ≤ stop then (forLoop stop sp (x + sp) f).map (fun l => x :: l)
      else some []

/-- Values of the vertical-line loop variable:
`for (let x = alignedStartX; x <= gridEndX; x += spacingX)` with
`alignedStartX = rectX`. -/
def vertXs (s : GridSettings) (fuel : ℕ) : Option (List ℚ) :=
  forLoop (gridEndX s) (spacingX s) (rectX s) fuel

/-- Values of the horizontal-line loop variable:
`for (let y = alignedStartY; y <= gridEndY; y += spacingY)` with
`alignedStartY = rectY`. -/
def horizYs (s : GridSettings) (fuel : ℕ) : Option (List ℚ) :=
  forLoop (gridEndY s) (spacingY s) (rectY s) fuel

/-- A `<line>` element: its four coordinates and stroke width. -/
structure LineElem where
  x1 : ℚ
  y1 : ℚ
  x2 : ℚ
  y2 : ℚ
  strokeWidth : ℚ
deriving DecidableEq, Repr

/-- The vertical line emitted at loop value `x`:
`<line x1=x y1=gridStartY x2=x y2=gridEndY stroke-width=lineWidth*mmToPixel>`. -/
def vLine (s : GridSettings) (x : ℚ) : LineElem :=
  ⟨x, gridStartY s, x, gridEndY s, s.lineWidth * mmToPixel⟩

/-- The horizontal line emitted at loop value `y`:
`<line x1=gridStartX y1=y x2=gridEndX y2=y stroke-width=lineWidth*mmToPixel>`. -/
def hLine (s : GridSettings) (y : ℚ) : LineElem :=
  ⟨gridStartX s, y, gridEndX s, y, s.lineWidth * mmToPixel⟩

/-- Guard of the vertical-loop body: `if (x >= rectX && x <= rectX + rectW)`. -/
def vGuard (s : GridSettings) (x : ℚ) : Bool :=
  decide (rectX s ≤ x ∧ x ≤ rectX s + rectW s)

/-- Guard of the horizontal-loop body: `if (y >= rectY && y <= rectY + rectH)`. -/
def hGuard (s : GridSettings) (y : ℚ) : Bool :=
  decide (rectY s ≤ y ∧ y ≤ rectY s + rectH s)

/-- The vertical `<line>` elements appended to `gridLines` (loop values that
pass the body guard, each turned into a vertical line). -/
def vertLines (s : GridSettings) (fuel : ℕ) : Option (List LineElem) :=
  (vertXs s fuel).map (fun xs => (xs.filter (vGuard s)).map (vLine s))

/-- The horizontal `<line>` elements appended to `gridLines`. -/
def horizLines (s : GridSettings) (fuel : ℕ) : Option (List LineElem) :=
  (horizYs s fuel).map (fun ys => (ys.filter (hGuard s)).map (hLine s))

/-- The full `gridLines` accumulator: vertical lines first, then horizontal
lines, in loop order; `none` when either loop fails to terminate. -/
def gridPart (s : GridSettings) (fuel : ℕ) : Option (List LineElem) :=
  match vertLines s fuel, horizLines s fuel with
  | some vs, some hs => some (vs ++ hs)
  | _, _ => none

/-- A `<rect>` element as (x, y, width, height). -/
structure RectElem where
  x : ℚ
  y : ℚ
  w : ℚ
  h : ℚ
deriving DecidableEq, Repr

/-- The structured content of the returned SVG string: declared physical
size, viewBox size, the three stroke widths of the style block, the grid
line elements, and the centered rectangle element. The page-boundary
`<rect>` is rendered from the viewBox size (x=0, y=0, full canvas). -/
structure SvgDoc where
  widthMm : ℚ
  heightMm : ℚ
  viewW : ℚ
  viewH : ℚ
  pageStrokeWidth : ℚ
  rectStrokeWidth : ℚ
  gridStrokeWidth : ℚ
  gridLines : List LineElem
  rectangle : RectElem
deriving DecidableEq, Repr

/-- The `SvgDoc` assembled by `generateSVG` from the settings: all numeric
fields exactly as computed in the source; the page-boundary stroke width is
the literal `1` of the source's style block. `none` when a grid loop does
not terminate. -/
def generateDoc (s : GridSettings) (fuel : ℕ) : Option SvgDoc :=
  (gridPart s fuel).map (fun gl =>
    { widthMm := pageWidthMm s
      heightMm := pageHeightMm s
      viewW := svgWidth s
      viewH := svgHeight s
      pageStrokeWidth := 1
      rectStrokeWidth := s.rectangleBorderWidth * mmToPixel
      gridStrokeWidth := s.lineWidth * mmToPixel
      gridLines := gl
      rectangle := ⟨rectX s, rectY s, rectW s, rectH s⟩ })

/-- Rendering of one `<line>` element, as interpolated in the loop body. -/
def renderLine (l : LineElem) : String :=
  "<line x1=\"" ++ toString l.x1 ++ "\" y1=\"" ++ toString l.y1 ++
    "\" x2=\"" ++ toString l.x2 ++ "\" y2=\"" ++ toString l.y2 ++
    "\" stroke=\"#666\" stroke-width=\"" ++ toString l.strokeWidth ++ "\" />\n"

/-- The XML prologue and `<svg>` open tag: physical size in millimeters,
viewBox in device pixels. -/
def svgHeader (d : SvgDoc) : String :=
  "<?xml version=\"1.0\" encoding=\"UTF-8\"?>\n<svg width=\"" ++
    toString d.widthMm ++ "mm\" height=\"" ++ toString d.heightMm ++
    "mm\" viewBox=\"0 0 " ++ toString d.viewW ++ " " ++ toString d.viewH ++
    "\" xmlns=\"http://www.w3.org/2000/svg\">\n"

/-- The `<defs><style>` block with the three stroke classes. -/
def styleBlock (d : SvgDoc) : String :=
  "  <defs>\n    <style>\n      .page-boundary \x7b fill: none; stroke: #000; stroke-width: " ++
    toString d.pageStrokeWidth ++
    "; \x7d\n      .rectangle \x7b fill: none; stroke: #000; stroke-width: " ++
    toString d.rectStrokeWidth ++
    "; \x7d\n      .grid-line \x7b stroke: #666; stroke-width: " ++
    toString d.gridStrokeWidth ++ "; \x7d\n    </style>\n  </defs>\n"

/-- The page-boundary `<rect>`: x=0, y=0, full device-space canvas. -/
def renderPageBoundary (d : SvgDoc) : String :=
  "  <rect class=\"page-boundary\" x=\"0\" y=\"0\" width=\"" ++
    toString d.viewW ++ "\" height=\"" ++ toString d.viewH ++ "\" />\n"

/-- The centered rectangle `<rect>` and the closing tag. -/
def renderRectangle (d : SvgDoc) : String :=
  "  <rect class=\"rectangle\" x=\"" ++ toString d.rectangle.x ++
    "\" y=\"" ++ toString d.rectangle.y ++ "\" width=\"" ++
    toString d.rectangle.w ++ "\" height=\"" ++ toString d.rectangle.h ++
    "\" />\n</svg>"

/-- Everything of the template after the style block: page boundary, then
grid lines, then the rectangle, in the source's fixed order. -/
def afterStyle (d : SvgDoc) : String :=
  "  \n  <!-- Page boundary -->\n" ++ renderPageBoundary d ++
    "  \n  <!-- Grid lines -->\n  " ++
    String.join (d.gridLines.map renderLine) ++
    "\n  \n  <!-- Rectangle -->\n" ++ renderRectangle d

/-- The full template string of the source's return statement. -/
def render (d : SvgDoc) : String :=
  svgHeader d ++ styleBlock d ++ afterStyle d

/-- `generateSVG`: the settings-to-string transform (fuel-indexed; `none`
models the source's non-terminating loops). -/
def generateSVG (s : GridSettings) (fuel : ℕ) : Option String :=
  (generateDoc s fuel).map render

/-- The default settings of the source's `useState` initializer (the source
literal omits `gridType` and `dotSize`; we pick `lines` and `1`, which
`generateSVG` never reads). A4 page, 100×80 rectangle, 10×10 spacing. -/
def a4 : GridSettings :=
  { pageWidth := 210
    pageHeight := 297
    pageUnit := PageUnit.mm
    gridType := GridType.lines
    gridSpacingX := 10
    gridSpacingY := 10
    lineWidth := 1 / 5
    dotSize := 1
    rectangleWidth := 100
    rectangleHeight := 80
    rectangleBorderWidth := 2 / 5 }

/-- A4 defaults with X spacing set to `0`. -/
def a4zeroSX : GridSettings := { a4 with gridSpacingX := 0 }

/-- A4 defaults with X spacing set to `-5`. -/
def a4negSX : GridSettings := { a4 with gridSpacingX := -5 }

/-- A4 defaults in dots mode. -/
def a4dots : GridSettings := { a4 with gridType := GridType.dots }

/-- A settings value whose numeric fields are all `5` (page unit mm,
line grid). -/
def sFive : GridSettings :=
  { pageWidth := 5
    pageHeight := 5
    pageUnit := PageUnit.mm
    gridType := GridType.lines
    gridSpacingX := 5
    gridSpacingY := 5
    lineWidth := 5
    dotSize := 5
    rectangleWidth := 5
    rectangleHeight := 5
    rectangleBorderWidth := 5 }

/-- Containment and full-height-span check for a vertical grid line: all
four coordinates inside the rectangle, and the y-span exactly the
rectangle's top and bottom edges. -/
def vertCheck (s : GridSettings) (l : LineElem) : Bool :=
  decide (rectX s ≤ l.x1 ∧ l.x1 ≤ rectX s + rectW s ∧
          rectX s ≤ l.x2 ∧ l.x2 ≤ rectX s + rectW s ∧
          rectY s ≤ l.y1 ∧ l.y1 ≤ rectY s + rectH s ∧
          rectY s ≤ l.y2 ∧ l.y2 ≤ rectY s + rectH s ∧
          l.y1 = rectY s ∧ l.y2 = rectY s + rectH s)

/-- Containment and full-width-span check for a horizontal grid line. -/
def horizCheck (s : GridSettings) (l : LineElem) : Bool :=
  decide (rectX s ≤ l.x1 ∧ l.x1 ≤ rectX s + rectW s ∧
          rectX s ≤ l.x2 ∧ l.x2 ≤ rectX s + rectW s ∧
          rectY s ≤ l.y1 ∧ l.y1 ≤ rectY s + rectH s ∧
          rectY s ≤ l.y2 ∧ l.y2 ≤ rectY s + rectH s ∧
          l.x1 = rectX s ∧ l.x2 = rectX s + rectW s)

/-- The mm→pixel factor is positive. -/
theorem mmToPixel_pos : 0 < mmToPixel := by norm_num [mmToPixel]

/-- When the loop guard fails at entry, the loop yields the empty list,
whatever the fuel. -/
theorem forLoop_of_gt (stop sp x : ℚ) (h : ¬ x ≤ stop) (fuel : ℕ) :
    forLoop stop sp x fuel = some [] := by
  cases fuel <;> simp [forLoop, h]

/-- Non-positive step: as long as the guard holds at entry, no fuel
suffices — the source loop never terminates. -/
theorem forLoop_none_of_nonpos (stop sp : ℚ) (hsp : sp ≤ 0) :
    ∀ (fuel : ℕ) (x : ℚ), x ≤ stop → forLoop stop sp x fuel = none := by
  intro fuel
  induction fuel with
  | zero => intro x hx; simp [forLoop, hx]
  | succ f ih =>
      intro x hx
      simp [forLoop, hx, ih (x + sp) (by linarith)]

/-- Shifting an arithmetic progression by one step. -/
theorem cons_arith_range (x sp : ℚ) (n : ℕ) :
    x :: (List.range n).map (fun k : ℕ => x + sp + (k : ℚ) * sp) =
      (List.range (n + 1)).map (fun k : ℕ => x + (k : ℚ) * sp) := by
  rw [List.range_succ_eq_map, List.map_cons, List.map_map]
  congr 1
  · norm_num
  · refine List.map_congr_left ?_
    intro k hk
    simp only [Function.comp_apply]
    push_cast
    ring

/-- One iteration of the loop when the guard holds. -/
theorem forLoop_of_le (stop sp x : ℚ) (h : x ≤ stop) (f : ℕ) :
    forLoop stop sp x (f + 1) =
      (forLoop stop sp (x + sp) f).map (fun l => x :: l) := by
  simp [forLoop, h]

/-- Nonnegative step, with `n` chosen so that the `(n+1)`-st candidate is
the first beyond `stop` and fuel exceeding `n`: the loop yields exactly
`x, x+sp, …, x+n·sp`. -/
theorem forLoop_eval (stop sp : ℚ) (hsp : 0 ≤ sp) :
    ∀ (n : ℕ) (x : ℚ) (fuel : ℕ), n < fuel →
      x + n * sp ≤ stop → stop < x + (n + 1) * sp →
      forLoop stop sp x fuel =
        some ((List.range (n + 1)).map (fun k : ℕ => x + (k : ℚ) * sp)) := by
  intro n
  induction n with
  | zero =>
      intro x fuel hfuel h1 h2
      obtain ⟨f, rfl⟩ : ∃ f, fuel = f + 1 := ⟨fuel - 1, by omega⟩
      have hx : x ≤ stop := by push_cast at h1; linarith
      have hx2 : ¬ x + sp ≤ stop := by push_cast at h2; intro hc; linarith
      rw [forLoop_of_le _ _ _ hx, forLoop_of_gt _ _ _ hx2]
      simp [List.range_succ]
  | succ m ih =>
      intro x fuel hfuel h1 h2
      obtain ⟨f, rfl⟩ : ∃ f, fuel = f + 1 := ⟨fuel - 1, by omega⟩
      have hmsp : 0 ≤ ((m : ℚ) + 1) * sp := by positivity
      have hx : x ≤ stop := by push_cast at h1; nlinarith
      have hrec := ih (x + sp) f (by omega)
        (by push_cast at h1 ⊢; ring_nf at h1 ⊢; linarith)
        (by push_cast at h2 ⊢; ring_nf at h2 ⊢; linarith)
      rw [forLoop_of_le _ _ _ hx, hrec, Option.map_some']
      congr 1
      exact cons_arith_range x sp (m + 1)

/-- Every value produced by the loop lies between the start value and the
loop bound (nonnegative step). -/
theorem forLoop_mem_bounds (stop sp : ℚ) (hsp : 0 ≤ sp) :
    ∀ (fuel : ℕ) (x : ℚ) (l : List ℚ), forLoop stop sp x fuel = some l →
      ∀ y ∈ l, x ≤ y ∧ y ≤ stop := by
  intro fuel
  induction fuel with
  | zero =>
      intro x l h y hy
      by_cases hx : x ≤ stop
      · simp [forLoop, hx] at h
      · simp [forLoop, hx] at h
        subst h
        simp at hy
  | succ f ih =>
      intro x l h y hy
      by_cases hx : x ≤ stop
      · simp [forLoop, hx] at h
        obtain ⟨l', hl', rfl⟩ := h
        rcases List.mem_cons.mp hy with rfl | hy'
        · exact ⟨le_refl y, hx⟩
        · have := ih (x + sp) l' hl' y hy'
          exact ⟨by linarith [this.1], this.2⟩
      · simp [forLoop, hx] at h
        subst h
        simp at hy

/-- If the vertical loop does not terminate, neither does `gridLines`. -/
theorem gridPart_none_left (s : GridSettings) (fuel : ℕ)
    (h : vertLines s fuel = none) : gridPart s fuel = none := by
  unfold gridPart
  rw [h]

/-- Non-positive X spacing with a nonempty x-range: the vertical loop never
terminates. -/
theorem vertLines_none_of_nonpos (s : GridSettings) (fuel : ℕ)
    (hsp : spacingX s ≤ 0) (hle : rectX s ≤ gridEndX s) :
    vertLines s fuel = none := by
  unfold vertLines vertXs
  rw [forLoop_none_of_nonpos _ _ hsp fuel _ hle]
  rfl

/-- The vertical loop at the A4 defaults: values `rectX + k·spacingX` for
`k = 0, …, 10`. -/
theorem vertXs_a4 : vertXs a4 30 =
    some ((List.range 11).map (fun k : ℕ => rectX a4 + (k : ℚ) * spacingX a4)) := by
  refine forLoop_eval (gridEndX a4) (spacingX a4)
    (by norm_num [spacingX, a4, mmToPixel]) 10 (rectX a4) 30 (by omega) ?_ ?_ <;>
    norm_num [rectX, spacingX, gridEndX, rectW, rectangleX, pageWidthMm, a4, mmToPixel]

/-- The horizontal loop at the A4 defaults: values `rectY + k·spacingY` for
`k = 0, …, 8`. -/
theorem horizYs_a4 : horizYs a4 30 =
    some ((List.range 9).map (fun k : ℕ => rectY a4 + (k : ℚ) * spacingY a4)) := by
  refine forLoop_eval (gridEndY a4) (spacingY a4)
    (by norm_num [spacingY, a4, mmToPixel]) 8 (rectY a4) 30 (by omega) ?_ ?_ <;>
    norm_num [rectY, spacingY, gridEndY, rectH, rectangleY, pageHeightMm, a4, mmToPixel]

/-- At the A4 defaults all 11 vertical loop values pass the body guard. -/
theorem a4_vert_lines : vertLines a4 30 =
    some (((List.range 11).map (fun k : ℕ => rectX a4 + (k : ℚ) * spacingX a4)).map (vLine a4)) := by
  have hb := forLoop_mem_bounds (gridEndX a4) (spacingX a4)
    (by norm_num [spacingX, a4, mmToPixel]) 30 (rectX a4) _ vertXs_a4
  unfold vertLines
  rw [vertXs_a4, Option.map_some']
  have hge : gridEndX a4 = rectX a4 + rectW a4 := rfl
  have hfilter : ((List.range 11).map (fun k : ℕ => rectX a4 + (k : ℚ) * spacingX a4)).filter (vGuard a4) =
      (List.range 11).map (fun k : ℕ => rectX a4 + (k : ℚ) * spacingX a4) := by
    refine List.filter_eq_self.mpr ?_
    intro y hy
    have hy2 := hb y hy
    rw [hge] at hy2
    simp [vGuard]
    exact hy2
  rw [hfilter]

/-- At the A4 defaults all 9 horizontal loop values pass the body guard. -/
theorem a4_horiz_lines : horizLines a4 30 =
    some (((List.range 9).map (fun k : ℕ => rectY a4 + (k : ℚ) * spacingY a4)).map (hLine a4)) := by
  have hb := forLoop_mem_bounds (gridEndY a4) (spacingY a4)
    (by norm_num [spacingY, a4, mmToPixel]) 30 (rectY a4) _ horizYs_a4
  unfold horizLines
  rw [horizYs_a4, Option.map_some']
  have hge : gridEndY a4 = rectY a4 + rectH a4 := rfl
  have hfilter : ((List.range 9).map (fun k : ℕ => rectY a4 + (k : ℚ) * spacingY a4)).filter (hGuard a4) =
      (List.range 9).map (fun k : ℕ => rectY a4 + (k : ℚ) * spacingY a4) := by
    refine List.filter_eq_self.mpr ?_
    intro y hy
    have hy2 := hb y hy
    rw [hge] at hy2
    simp [hGuard]
    exact hy2
  rw [hfilter]

/-- Count of vertical line elements at the A4 defaults. -/
theorem a4_vert_count : (vertLines a4 30).map List.length = some 11 := by
  rw [a4_vert_lines]
  simp

/-- Count of horizontal line elements at the A4 defaults. -/
theorem a4_horiz_count : (horizLines a4 30).map List.length = some 9 := by
  rw [a4_horiz_lines]
  simp

/-- The vertical loop at `sFive`: two values, `0` and `5·mmToPixel`. -/
theorem sFive_vertXs : vertXs sFive 30 =
    some ((List.range 2).map (fun k : ℕ => rectX sFive + (k : ℚ) * spacingX sFive)) := by
  refine forLoop_eval (gridEndX sFive) (spacingX sFive)
    (by norm_num [spacingX, sFive, mmToPixel]) 1 (rectX sFive) 30 (by omega) ?_ ?_ <;>
    norm_num [rectX, spacingX, gridEndX, rectW, rectangleX, pageWidthMm, sFive, mmToPixel]

/-- The horizontal loop at `sFive`: two values, `0` and `5·mmToPixel`. -/
theorem sFive_horizYs : horizYs sFive 30 =
    some ((List.range 2).map (fun k : ℕ => rectY sFive + (k : ℚ) * spacingY sFive)) := by
  refine forLoop_eval (gridEndY sFive) (spacingY sFive)
    (by norm_num [spacingY, sFive, mmToPixel]) 1 (rectY sFive) 30 (by omega) ?_ ?_ <;>
    norm_num [rectY, spacingY, gridEndY, rectH, rectangleY, pageHeightMm, sFive, mmToPixel]

/-- C1: the spec requires `generate` to return in bounded time for zero or
negative `gridSpacingX`; the source's vertical for-loop
(`for (let x = rectX; x <= gridEndX; x += spacingX)`) never advances past
its guard when the step is non-positive, so with the A4 defaults and
`gridSpacingX = 0` (or `-5`) no amount of fuel makes the model return a
string: the code never terminates there. -/
theorem c1_nonpositive_spacing_never_returns :
    ∀ fuel : ℕ, generateSVG a4zeroSX fuel = none ∧ generateSVG a4negSX fuel = none := by
  intro fuel
  constructor
  · have hnone : vertLines a4zeroSX fuel = none :=
      vertLines_none_of_nonpos _ fuel
        (by norm_num [spacingX, a4zeroSX, a4, mmToPixel])
        (by norm_num [rectX, gridEndX, rectW, rectangleX, pageWidthMm, a4zeroSX, a4, mmToPixel])
    simp [generateSVG, generateDoc, gridPart_none_left _ _ hnone]
  · have hnone : vertLines a4negSX fuel = none :=
      vertLines_none_of_nonpos _ fuel
        (by norm_num [spacingX, a4negSX, a4, mmToPixel])
        (by norm_num [rectX, gridEndX, rectW, rectangleX, pageWidthMm, a4negSX, a4, mmToPixel])
    simp [generateSVG, generateDoc, gridPart_none_left _ _ hnone]

/-- C2: the spec says dots mode emits 99 filled circles and no lines; the
source never reads `gridType`, so at the A4 dots scenario it emits the
same output as lines mode — 11 vertical and 9 horizontal `<line>`
elements and no dot primitive at all. -/
theorem c2_dots_mode_emits_lines_not_dots :
    (vertLines a4dots 30).map List.length = some 11 ∧
    (horizLines a4dots 30).map List.length = some 9 ∧
    generateSVG a4dots 30 = generateSVG a4 30 := by
  have hv : vertLines a4dots 30 = vertLines a4 30 := rfl
  have hh : horizLines a4dots 30 = horizLines a4 30 := rfl
  exact ⟨by rw [hv]; exact a4_vert_count, by rw [hh]; exact a4_horiz_count, rfl⟩

/-- C3: page dimensions are normalized to millimeters by the fixed factors
cm → ×10, in → ×25.4, mm → ×1, and a 21 cm page yields the same
device-space width as a 210 mm page. -/
theorem c3_unit_normalization (s : GridSettings) :
    pageWidthMm { s with pageUnit := PageUnit.cm } = s.pageWidth * 10 ∧
    pageWidthMm { s with pageUnit := PageUnit.inch } = s.pageWidth * (254 / 10) ∧
    pageWidthMm { s with pageUnit := PageUnit.mm } = s.pageWidth ∧
    pageHeightMm { s with pageUnit := PageUnit.cm } = s.pageHeight * 10 ∧
    pageHeightMm { s with pageUnit := PageUnit.inch } = s.pageHeight * (254 / 10) ∧
    pageHeightMm { s with pageUnit := PageUnit.mm } = s.pageHeight ∧
    svgWidth { s with pageUnit := PageUnit.cm, pageWidth := 21 } =
      svgWidth { s with pageUnit := PageUnit.mm, pageWidth := 210 } := by
  refine ⟨rfl, rfl, rfl, rfl, rfl, rfl, ?_⟩
  norm_num [svgWidth, pageWidthMm]

/-- C4: whenever the generator returns, its rectangle element sits at
`((pageWidthMm − rectangleWidth)/2, (pageHeightMm − rectangleHeight)/2)`
scaled to device space — a pure function of page and rectangle size; the
origin goes negative (not clamped) when the rectangle exceeds the page,
e.g. a 300 mm-wide rectangle on the A4 page. -/
theorem c4_rectangle_centered (s : GridSettings) (fuel : ℕ) :
    (generateDoc s fuel).map (fun d => (d.rectangle.x, d.rectangle.y)) =
      (gridPart s fuel).map (fun _ =>
        ((pageWidthMm s - s.rectangleWidth) / 2 * mmToPixel,
         (pageHeightMm s - s.rectangleHeight) / 2 * mmToPixel)) ∧
    rectangleX { a4 with rectangleWidth := 300 } < 0 := by
  constructor
  · unfold generateDoc
    rcases gridPart s fuel with _ | gl <;> rfl
  · norm_num [rectangleX, pageWidthMm, a4]

/-- C5: with positive spacing (and the spec's nonnegative rectangle
dimensions), every emitted grid line lies inside
`[rectangleOrigin, rectangleOrigin + (rectangleWidth, rectangleHeight)]`
in device space, vertical lines spanning the full rectangle height and
horizontal ones the full width. -/
theorem c5_grid_containment (s : GridSettings) (fuel : ℕ)
    (hx : 0 < s.gridSpacingX) (hy : 0 < s.gridSpacingY)
    (hw : 0 ≤ s.rectangleWidth) (hh : 0 ≤ s.rectangleHeight) :
    ((vertLines s fuel).getD []).all (vertCheck s) = true ∧
    ((horizLines s fuel).getD []).all (horizCheck s) = true := by
  have hrW : 0 ≤ rectW s := mul_nonneg hw mmToPixel_pos.le
  have hrH : 0 ≤ rectH s := mul_nonneg hh mmToPixel_pos.le
  constructor
  · unfold vertLines
    rcases vertXs s fuel with _ | xs
    · simp
    · simp only [Option.map_some', Option.getD_some]
      rw [List.all_eq_true]
      intro l hl
      rw [List.mem_map] at hl
      obtain ⟨x, hxmem, rfl⟩ := hl
      have hg := List.of_mem_filter hxmem
      rw [vGuard, decide_eq_true_eq] at hg
      rw [vertCheck, decide_eq_true_eq]
      exact ⟨hg.1, hg.2, hg.1, hg.2, le_refl _, le_add_of_nonneg_right hrH,
        le_add_of_nonneg_right hrH, le_refl _, rfl, rfl⟩
  · unfold horizLines
    rcases horizYs s fuel with _ | ys
    · simp
    · simp only [Option.map_some', Option.getD_some]
      rw [List.all_eq_true]
      intro l hl
      rw [List.mem_map] at hl
      obtain ⟨y, hymem, rfl⟩ := hl
      have hg := List.of_mem_filter hymem
      rw [hGuard, decide_eq_true_eq] at hg
      rw [horizCheck, decide_eq_true_eq]
      exact ⟨le_refl _, le_add_of_nonneg_right hrW, le_add_of_nonneg_right hrW,
        le_refl _, hg.1, hg.2, hg.1, hg.2, rfl, rfl⟩

/-- Witness for C5 at the A4 defaults. -/
theorem c5_witness :
    ((0 : ℚ) < a4.gridSpacingX ∧ (0 : ℚ) < a4.gridSpacingY ∧
      (0 : ℚ) ≤ a4.rectangleWidth ∧ (0 : ℚ) ≤ a4.rectangleHeight) ∧
    ((vertLines a4 30).getD []).all (vertCheck a4) = true ∧
    ((horizLines a4 30).getD []).all (horizCheck a4) = true :=
  ⟨⟨by norm_num [a4], by norm_num [a4], by norm_num [a4], by norm_num [a4]⟩,
    c5_grid_containment a4 30 (by norm_num [a4]) (by norm_num [a4])
      (by norm_num [a4]) (by norm_num [a4])⟩

/-- C6: the output string is exactly, in this fixed order: XML/`<svg>`
header, style block, page-boundary `<rect>` spanning the full device
canvas from (0,0), the grid `<line>` elements, and last the centered
rectangle `<rect>`; the doc's viewBox is the full device-space page and
the rectangle class is stroked at `rectangleBorderWidth·mmToPixel`. -/
theorem c6_fixed_element_order (s : GridSettings) (fuel : ℕ) :
    generateSVG s fuel = (generateDoc s fuel).map (fun d =>
      svgHeader d ++ styleBlock d ++
        "  \n  <!-- Page boundary -->\n" ++ renderPageBoundary d ++
        "  \n  <!-- Grid lines -->\n  " ++
        String.join (d.gridLines.map renderLine) ++
        "\n  \n  <!-- Rectangle -->\n" ++ renderRectangle d) ∧
    (generateDoc s fuel).map (fun d => (d.viewW, d.viewH)) =
      (gridPart s fuel).map (fun _ => (svgWidth s, svgHeight s)) ∧
    (generateDoc s fuel).map SvgDoc.rectStrokeWidth =
      (gridPart s fuel).map (fun _ => s.rectangleBorderWidth * mmToPixel) := by
  refine ⟨?_, ?_, ?_⟩ <;>
  · rcases h : gridPart s fuel with _ | gl <;>
      simp [generateSVG, generateDoc, h, render, afterStyle, String.append_assoc]

/-- C7: the A4 lines scenario: rectangle origin (55, 108.5) mm in page
coordinates, device page size exactly (210·K, 297·K) with
K = 3.779527559 (≈ (793.7, 1122.5) px), and exactly 11 vertical and 9
horizontal grid lines. -/
theorem c7_a4_scenario :
    rectangleX a4 = 55 ∧ rectangleY a4 = 217 / 2 ∧
    mmToPixel = 3779527559 / 1000000000 ∧
    svgWidth a4 = 210 * mmToPixel ∧ svgHeight a4 = 297 * mmToPixel ∧
    (7937 / 10 : ℚ) ≤ svgWidth a4 ∧ svgWidth a4 < 7938 / 10 ∧
    (11225 / 10 : ℚ) ≤ svgHeight a4 ∧ svgHeight a4 < 11226 / 10 ∧
    (vertLines a4 30).map List.length = some 11 ∧
    (horizLines a4 30).map List.length = some 9 := by
  refine ⟨?_, ?_, rfl, ?_, ?_, ?_, ?_, ?_, ?_, a4_vert_count, a4_horiz_count⟩ <;>
    norm_num [rectangleX, rectangleY, svgWidth, svgHeight, pageWidthMm,
      pageHeightMm, a4, mmToPixel]

/-- C8: `generateSVG` is a pure function of the settings record: two runs
on equal settings give byte-identical output. -/
theorem c8_pure_two_runs (s t : GridSettings) (fuel : ℕ) (h : s = t) :
    generateSVG s fuel = generateSVG t fuel := by rw [h]

/-- Witness for C8 at the A4 defaults. -/
theorem c8_witness : a4 = a4 ∧ generateSVG a4 30 = generateSVG a4 30 :=
  ⟨rfl, c8_pure_two_runs a4 a4 30 rfl⟩

/-- C9 counterexample: at `sFive` (every numeric setting equals 5) the
generator returns, and its declared page-boundary stroke width is the
constant `1` — while every settings value converted to device space is
`5 · mmToPixel ≠ 1`. So not every declared stroke width is a settings
value times the conversion constant. -/
theorem c9_counterexample :
    (generateDoc sFive 30).map SvgDoc.pageStrokeWidth = some 1 ∧
    ¬ (1 : ℚ) = 5 * mmToPixel := by
  constructor
  · unfold generateDoc
    have hg : ∃ gl, gridPart sFive 30 = some gl := by
      unfold gridPart vertLines horizLines
      rw [sFive_vertXs, sFive_horizYs]
      exact ⟨_, rfl⟩
    obtain ⟨gl, hg⟩ := hg
    rw [hg]
    rfl
  · norm_num [mmToPixel]

/-- C9 (amended): the output contains the style block's three stroke
classes; the rectangle class is stroked at `rectangleBorderWidth·K`, the
grid-line class at `lineWidth·K`, and the page-boundary class at the
fixed constant `1`, which is not derived from the settings. -/
theorem c9_style_block_widths (s : GridSettings) (fuel : ℕ) :
    generateSVG s fuel =
      (generateDoc s fuel).map (fun d => svgHeader d ++ styleBlock d ++ afterStyle d) ∧
    (generateDoc s fuel).map SvgDoc.rectStrokeWidth =
      (gridPart s fuel).map (fun _ => s.rectangleBorderWidth * mmToPixel) ∧
    (generateDoc s fuel).map SvgDoc.gridStrokeWidth =
      (gridPart s fuel).map (fun _ => s.lineWidth * mmToPixel) ∧
    (generateDoc s fuel).map SvgDoc.pageStrokeWidth =
      (gridPart s fuel).map (fun _ => (1 : ℚ)) := by
  refine ⟨rfl, ?_, ?_, ?_⟩ <;>
  · unfold generateDoc
    rcases gridPart s fuel with _ | gl <;> rfl

/-- C10: the output never depends on `gridType` or `dotSize` — settings
differing only there produce identical strings. -/
theorem c10_output_independent_of_gridType_dotSize
    (s : GridSettings) (gt : GridType) (ds : ℚ) (fuel : ℕ) :
    generateSVG { s with gridType := gt, dotSize := ds } fuel = generateSVG s fuel := rfl
